import Mathlib

/-!
Verification of the Baileys-REST session-supervisor core.

This file gives a shallow embedding of the connection lifecycle code of the
repository (the modular revision: `src/services/connection/EventHandlers.ts`,
`src/services/connection/ConnectionManager.ts`,
`src/services/messaging/MessageService.ts`,
`src/services/contacts/ContactService.ts`) and proves properties of it.

Modelling conventions:
* JavaScript strings that are only compared for equality are `String`;
  phone numbers, whose character structure matters, are `List Char` (`JStr`).
* `undefined` / missing values are `Option`; JavaScript falsiness of a string
  (`!s`, false for `undefined` and `""`) is modelled explicitly.
* `setTimeout` handles are timer ids; a `TimerState` records which scheduled
  timers are still pending (scheduled, not yet fired, not cancelled).
  Assigning a new handle over an old one does NOT cancel the old timer,
  exactly as in JavaScript; only `clearTimeout` removes a pending timer.
  Log-only `setTimeout` callbacks (whose bodies never mutate state) are not
  tracked, since no observable behaviour depends on them.
* Network calls are oracles passed as parameters (their outcome is an input).
* Machine integers do not overflow in any code modelled here (attempt counters
  and millisecond delays stay far below 2^53), so `Nat` is used directly.
-/

namespace BaileysRest

/-- Connection status of an instance, from `src/services/types/InstanceData.ts`. -/
inductive Status where
  | connecting
  | connected
  | disconnected
  | qr_pending
  | code_pending
deriving DecidableEq, Repr

/-- Pairing method of an instance, from `src/services/types/InstanceData.ts`. -/
inductive PairingMethod where
  | qr
  | code
deriving DecidableEq, Repr

/-- Per-session state, from `src/services/types/InstanceData.ts`.
`reconnectTimeout` holds the id of the last scheduled reconnect timer
(the `NodeJS.Timeout` handle). The live socket and `Date` fields carry no
information used by any property proved here and are omitted. -/
structure InstanceData where
  instanceId : String
  userId : String
  status : Status
  qr : Option String := none
  pairingCode : Option String := none
  profilePicture : Option String := none
  number : Option String := none
  reconnectionAttempts : Nat := 0
  reconnectTimeout : Option Nat := none
  shouldBeConnected : Bool := true
  pairingMethod : PairingMethod
  phoneNumber : Option String := none
deriving DecidableEq, Repr

/-- A scheduled reconnect timer: its id and the delay it was scheduled with. -/
structure ScheduledTimer where
  id : Nat
  delayMs : Nat
deriving DecidableEq, Repr

/-- The set of reconnect timers that are scheduled and could still fire. -/
structure TimerState where
  nextId : Nat := 0
  pending : List ScheduledTimer := []
deriving DecidableEq, Repr

/-- `setTimeout`: allocate a fresh timer id; the timer becomes pending. -/
def setTimeoutReconnect (ts : TimerState) (delayMs : Nat) : Nat × TimerState :=
  (ts.nextId,
   { nextId := ts.nextId + 1, pending := ⟨ts.nextId, delayMs⟩ :: ts.pending })

/-- `clearTimeout`: the timer with this id can no longer fire. -/
def clearTimeoutTimer (ts : TimerState) (id : Nat) : TimerState :=
  { ts with pending := ts.pending.filter (fun t => t.id ≠ id) }

namespace DisconnectReason

/-- Numeric values of `DisconnectReason` from `@whiskeysockets/baileys`. -/
def loggedOut : Nat := 401

def badSession : Nat := 500

def multideviceMismatch : Nat := 411

def restartRequired : Nat := 515

end DisconnectReason

/-- The permanent-disconnect set of `EventHandlers.handleConnectionClose`
(`src/services/connection/EventHandlers.ts` lines 366-373):
`[loggedOut, badSession, multideviceMismatch, 401, 403, 428]`. -/
def permanentDisconnectReasons : List Nat :=
  [DisconnectReason.loggedOut, DisconnectReason.badSession,
   DisconnectReason.multideviceMismatch, 401, 403, 428]

/-- The backoff delay computed at line 388 of
`src/services/connection/EventHandlers.ts`:
`Math.min(15000, 1000 * Math.pow(2, Math.min(attempts, 3)))`. -/
def reconnectDelayMs (attempts : Nat) : Nat :=
  min 15000 (1000 * 2 ^ (min attempts 3))

/-- `EventHandlers.handleConnectionClose`
(`src/services/connection/EventHandlers.ts` lines 321-403), for the case in
which the instance exists (`if (instance)`); when the instance is absent the
handler only logs. `reason` is `lastDisconnect?.error?.output?.statusCode`,
possibly `undefined`. The `restartRequired` and `515` branches schedule
log-only timeouts whose callbacks mutate nothing, and return. Scheduling in
the retry branch assigns `instance.reconnectTimeout` WITHOUT clearing the
previously stored timer. -/
def handleConnectionClose (reason : Option Nat) (inst : InstanceData)
    (ts : TimerState) : InstanceData × TimerState :=
  let inst := { inst with status := Status.disconnected }
  if reason = some DisconnectReason.restartRequired then
    ({ inst with shouldBeConnected := true }, ts)
  else if reason = some 515 then
    ({ inst with shouldBeConnected := true }, ts)
  else if (match reason with
           | some r => decide (r ∈ permanentDisconnectReasons)
           | none => false) then
    ({ inst with shouldBeConnected := false }, ts)
  else if inst.shouldBeConnected && decide (inst.reconnectionAttempts < 5) then
    let d := reconnectDelayMs inst.reconnectionAttempts
    let alloc := setTimeoutReconnect ts d
    ({ inst with reconnectTimeout := some alloc.1 }, alloc.2)
  else
    (inst, ts)

/-- The callback of the reconnect timer scheduled at lines 392-400 of
`src/services/connection/EventHandlers.ts`: when the timer fires it leaves
the pending set; the attempt counter is incremented only here (or, when the
guard fails, the instance is given up on). -/
def fireReconnectTimer (tid : Nat) (inst : InstanceData) (ts : TimerState) :
    InstanceData × TimerState :=
  let ts := { ts with pending := ts.pending.filter (fun t => t.id ≠ tid) }
  if inst.shouldBeConnected && decide (inst.reconnectionAttempts < 5) then
    ({ inst with reconnectionAttempts := inst.reconnectionAttempts + 1 }, ts)
  else
    ({ inst with shouldBeConnected := false }, ts)

/-- `EventHandlers.handleConnectionOpen`
(`src/services/connection/EventHandlers.ts` lines 405-436). `sockUserId` is
`sock.user?.id`; nothing happens when it is absent; the stored number is
`sock.user.id.split(':')[0]`, i.e. the prefix before the first colon,
embedded as `takeWhile`. `profilePictureResult`
is the outcome of `sock.profilePictureUrl(...)`, whose rejection is turned
into `''` by the inline `.catch(() => '')`, so the surrounding `try` cannot
be entered through a profile-picture failure. Note that `qr` and
`pairingCode` are NOT touched by this handler. -/
def handleConnectionOpen (sockUserId : Option String)
    (profilePictureResult : Option String) (inst : InstanceData)
    (ts : TimerState) : InstanceData × TimerState :=
  match sockUserId with
  | none => (inst, ts)
  | some uid =>
    let number := String.mk (uid.toList.takeWhile (fun c => c ≠ ':'))
    let profilePicture := profilePictureResult.getD ""
    let inst := { inst with
      status := Status.connected
      profilePicture := some profilePicture
      number := some number
      reconnectionAttempts := 0 }
    match inst.reconnectTimeout with
    | some tid => ({ inst with reconnectTimeout := none }, clearTimeoutTimer ts tid)
    | none => (inst, ts)

/-- QR branch of `EventHandlers.handleConnectionUpdate`
(`src/services/connection/EventHandlers.ts` lines 271-280): runs when the
update carries a `qr` payload; only acts for `pairingMethod = qr`.
`encodeResult` is the outcome of `QRCode.toDataURL` (`none` = rejection,
which is caught and only logged). -/
def handleQrUpdate (encodeResult : Option String) (inst : InstanceData) :
    InstanceData :=
  if inst.pairingMethod = PairingMethod.qr then
    match encodeResult with
    | some qrCode => { inst with qr := some qrCode, status := Status.qr_pending }
    | none => inst
  else
    inst

/-- Guard at line 283 of `src/services/connection/EventHandlers.ts` under
which a pairing code is requested: `connection === 'connecting'` updates with
`pairingMethod = code`, a (truthy) phone number, and no code yet. -/
def pairingCodeRequestGuard (inst : InstanceData) : Prop :=
  inst.pairingMethod = PairingMethod.code ∧
  (∃ p, inst.phoneNumber = some p ∧ p ≠ "") ∧
  inst.pairingCode = none

instance (inst : InstanceData) : Decidable (pairingCodeRequestGuard inst) := by
  unfold pairingCodeRequestGuard
  exact inferInstance

/-- Resolution of the deferred `sock.requestPairingCode` call of
`EventHandlers.handleConnectionUpdate`
(`src/services/connection/EventHandlers.ts` lines 285-295, current
revision): on success store the code and move to `code_pending`; on failure
set the status to `'disconnected'` (the pairing method is left unchanged). -/
def handlePairingCodeResult (requestResult : Option String)
    (inst : InstanceData) : InstanceData :=
  match requestResult with
  | some code => { inst with pairingCode := some code, status := Status.code_pending }
  | none => { inst with status := Status.disconnected }

/-- The same resolution in the legacy revision
(`src/services/whatsappService.ts` lines 157-171 and `src/unnamed/part_002`
lines 241-254): on failure fall back to the QR flow, switching
`pairingMethod` to `qr` and the status to `qr_pending`. -/
def handlePairingCodeResultLegacy (requestResult : Option String)
    (inst : InstanceData) : InstanceData :=
  match requestResult with
  | some code => { inst with pairingCode := some code, status := Status.code_pending }
  | none => { inst with pairingMethod := PairingMethod.qr, status := Status.qr_pending }

/-- The instance inserted by `ConnectionManager.createConnection`
(`src/services/connection/ConnectionManager.ts` lines 77-87). -/
def freshInstance (connectionId userId : String) (pm : PairingMethod)
    (phoneNumber : Option String) : InstanceData :=
  { instanceId := connectionId
    userId := userId
    status := Status.connecting
    reconnectionAttempts := 0
    shouldBeConnected := true
    pairingMethod := pm
    phoneNumber := phoneNumber }

/-- An on-disk credential directory `auth_sessions/<userId>/<connectionId>`. -/
structure AuthDir where
  userId : String
  connectionId : String
deriving DecidableEq, Repr

/-- State owned by `ConnectionManager`
(`src/services/connection/ConnectionManager.ts`): the in-memory instance
registry (`Map<string, InstanceData>`), the set of existing credential
directories, and the reconnect-timer environment. -/
structure ManagerState where
  instances : List (String × InstanceData) := []
  authDirs : List AuthDir := []
  timers : TimerState := {}
deriving DecidableEq, Repr

/-- `Map.get`: the instance registered under a connection id. -/
def mapGet (m : List (String × InstanceData)) (k : String) :
    Option InstanceData :=
  (m.find? (fun p => p.1 = k)).map Prod.snd

/-- `Map.set`: register (or replace) the instance under a connection id. -/
def mapSet (m : List (String × InstanceData)) (k : String)
    (v : InstanceData) : List (String × InstanceData) :=
  (k, v) :: m.filter (fun p => p.1 ≠ k)

/-- `Map.delete`. -/
def mapDelete (m : List (String × InstanceData)) (k : String) :
    List (String × InstanceData) :=
  m.filter (fun p => p.1 ≠ k)

/-- `fs.mkdirSync(authPath, recursive)` guarded by `fs.existsSync`. -/
def ensureAuthDir (dirs : List AuthDir) (d : AuthDir) : List AuthDir :=
  if d ∈ dirs then dirs else d :: dirs

/-- JavaScript falsiness of an optional string: `!s` is true for
`undefined` and for the empty string. -/
def isFalsyStr (s : Option String) : Bool :=
  match s with
  | none => true
  | some p => p = ""

/-- Digits of a phone string: `phoneNumber.replace(/\D/g, '')`. -/
def cleanDigits (p : String) : List Char :=
  p.toList.filter Char.isDigit

/-- Phone-number validation of `ConnectionManager.createConnection`
(`src/services/connection/ConnectionManager.ts` lines 50-59): only for
`pairingMethod = code`; requires a truthy `phoneNumber` whose DIGIT-STRIPPED
form has between 10 and 15 characters. Non-digit characters are removed
before the length check, not rejected. -/
def validatePairingPhone (pm : PairingMethod) (phoneNumber : Option String) :
    Except String Unit :=
  if pm = PairingMethod.code then
    if isFalsyStr phoneNumber then
      Except.error "Phone number is required for pairing code method"
    else
      match phoneNumber with
      | none => Except.error "Phone number is required for pairing code method"
      | some p =>
        let c := cleanDigits p
        if c.length < 10 ∨ c.length > 15 then
          Except.error "Phone number must be in E.164 format without + sign"
        else
          Except.ok ()
  else
    Except.ok ()

/-- Result of `createConnection` / `restartConnection`. -/
structure CreateResult where
  connectionId : String
  qrCode : Option String := none
  pairingCode : Option String := none
deriving DecidableEq, Repr

/-- `ConnectionManager.cleanup`
(`src/services/connection/ConnectionManager.ts` lines 427-457): give up on
the instance, cancel its pending reconnect timer, drop the registry entry
and delete the credential directory. -/
def cleanup (userId connectionId : String) (st : ManagerState) :
    ManagerState :=
  let timers :=
    match mapGet st.instances connectionId with
    | some inst =>
      match inst.reconnectTimeout with
      | some tid => clearTimeoutTimer st.timers tid
      | none => st.timers
    | none => st.timers
  { instances := mapDelete st.instances connectionId
    authDirs := st.authDirs.filter
      (fun d => ¬ (d.userId = userId ∧ d.connectionId = connectionId))
    timers := timers }

/-- `ConnectionManager.createConnection`
(`src/services/connection/ConnectionManager.ts` lines 42-146).
`connectionId` is the freshly drawn uuid; `socketOpenOk` is whether
`useMultiFileAuthState`/`makeWASocket` succeed (on failure the `catch` at
line 141 runs `cleanup` and rethrows). The credential directory is created
BEFORE the phone validation runs, and a validation failure throws before
the `try` block, so the directory is not cleaned up on that path. The
bounded QR/code poll loop only sleeps and reads, so it is stateless here;
the returned qr/code fields are those of the instance at return time. -/
def createConnection (userId : String) (pm : PairingMethod)
    (phoneNumber : Option String) (connectionId : String)
    (socketOpenOk : Bool) (st : ManagerState) :
    ManagerState × Except String CreateResult :=
  let st := { st with
    authDirs := ensureAuthDir st.authDirs ⟨userId, connectionId⟩ }
  match validatePairingPhone pm phoneNumber with
  | Except.error e => (st, Except.error e)
  | Except.ok _ =>
    if socketOpenOk then
      let instanceData := freshInstance connectionId userId pm phoneNumber
      let st := { st with
        instances := mapSet st.instances connectionId instanceData }
      (st,
       Except.ok
         (match pm with
          | PairingMethod.qr =>
            { connectionId := connectionId, qrCode := instanceData.qr }
          | PairingMethod.code =>
            { connectionId := connectionId,
              pairingCode := instanceData.pairingCode }))
    else
      (cleanup userId connectionId st, Except.error "socket creation failed")

/-- `ConnectionManager.restartConnection`
(`src/services/connection/ConnectionManager.ts` lines 235-341). Throws only
when the instance EXISTS and belongs to another user; a missing instance is
restarted as a brand-new `qr` session. When the instance exists its
`pairingMethod`, `phoneNumber` and (unless explicitly false)
`shouldBeConnected` are carried over, its pending reconnect timer is
cancelled, its socket is ended, and the same credential directory is reused;
no credential directory is ever deleted here. -/
def restartConnection (userId connectionId : String) (socketOpenOk : Bool)
    (st : ManagerState) : ManagerState × Except String CreateResult :=
  let found := mapGet st.instances connectionId
  match found with
  | some inst =>
    if inst.userId ≠ userId then
      (st, Except.error "Conexão não encontrada ou não autorizada")
    else
      let pm := inst.pairingMethod
      let phoneNumber := inst.phoneNumber
      let shouldBeConnected := inst.shouldBeConnected
      let timers :=
        match inst.reconnectTimeout with
        | some tid => clearTimeoutTimer st.timers tid
        | none => st.timers
      let st := { st with
        timers := timers
        instances := mapDelete st.instances connectionId
        authDirs := ensureAuthDir st.authDirs ⟨userId, connectionId⟩ }
      if socketOpenOk then
        let instanceData : InstanceData :=
          { freshInstance connectionId userId pm phoneNumber with
            shouldBeConnected := shouldBeConnected }
        ({ st with
           instances := mapSet st.instances connectionId instanceData },
         Except.ok
           (match pm with
            | PairingMethod.qr =>
              { connectionId := connectionId, qrCode := instanceData.qr }
            | PairingMethod.code =>
              { connectionId := connectionId,
                pairingCode := instanceData.pairingCode }))
      else
        (st, Except.error "socket creation failed")
  | none =>
    let st := { st with
      authDirs := ensureAuthDir st.authDirs ⟨userId, connectionId⟩ }
    if socketOpenOk then
      let instanceData := freshInstance connectionId userId PairingMethod.qr none
      ({ st with
         instances := mapSet st.instances connectionId instanceData },
       Except.ok { connectionId := connectionId, qrCode := instanceData.qr })
    else
      (st, Except.error "socket creation failed")

/-- A network round-trip performed by `MessageService.sendMessage` after the
status/owner guard passed. `waitMs` records a `delay(...)` call. -/
inductive NetOp where
  | presenceSubscribe (jid : String)
  | presenceComposing (jid : String)
  | waitMs (ms : Nat)
  | presencePaused (jid : String)
  | sendText (jid : String) (text : String)
deriving DecidableEq, Repr

/-- `MessageService.sendMessage`
(`src/services/messaging/MessageService.ts` lines 13-50). `resolveJid` is
the outcome of `contactService.getValidJid` (which swallows its own errors
and yields `null` on any failure). Returns the value resolved (`wa_id`) and
the list of network operations performed on the instance socket, in order;
a guard failure throws before any of them. The typing pause is
`Math.min(message.length * 50, 3000)` milliseconds. -/
def sendMessage (userId connectionId toNumber message : String)
    (resolveJid : String → Option String) (st : ManagerState) :
    Except String String × List NetOp :=
  match mapGet st.instances connectionId with
  | none =>
    (Except.error "Conexão não encontrada, não conectada ou não autorizada", [])
  | some inst =>
    if inst.status ≠ Status.connected ∨ inst.userId ≠ userId then
      (Except.error "Conexão não encontrada, não conectada ou não autorizada", [])
    else
      match resolveJid toNumber with
      | none =>
        (Except.error "Número não está no WhatsApp ou é inválido", [])
      | some validJid =>
        (Except.ok validJid,
         [NetOp.presenceSubscribe validJid,
          NetOp.waitMs 500,
          NetOp.presenceComposing validJid,
          NetOp.waitMs (min (message.length * 50) 3000),
          NetOp.presencePaused validJid,
          NetOp.waitMs 500,
          NetOp.sendText validJid message])

/-- JavaScript strings of the contact module are modelled as character
lists, so that `substring`/`replace` become `take`/`drop`/`filter`. -/
abbrev JStr := List Char

/-- The `@s.whatsapp.net` suffix appended to bare numbers. -/
def whatsappSuffix : JStr := "@s.whatsapp.net".toList

/-- Turn a number to test into a jid
(`testNumber.includes('@') ? testNumber : testNumber + '@s.whatsapp.net'`,
`src/services/contacts/ContactService.ts` line 281). -/
def jidOf (testNumber : JStr) : JStr :=
  if '@' ∈ testNumber then testNumber else testNumber ++ whatsappSuffix

/-- `ContactService.getBrazilianNumberVariations`
(`src/services/contacts/ContactService.ts` lines 423-465, current revision).
The input keeps its `@`-form unchanged; otherwise it is digit-stripped.
Non-Brazilian numbers (clean form not starting `55`) are probed as-is. A
13-character clean number is probed first as-is and then with the character
at index 4 removed (`substring(5)` after `'55' + ddd`); a 12-character one
is probed first as-is and then with `'9'` inserted at index 4. -/
def getBrazilianNumberVariations (number : JStr) : List JStr :=
  let cleanNum := number.filter Char.isDigit
  if '@' ∈ number then
    [number]
  else if cleanNum.take 2 ≠ ['5', '5'] then
    [cleanNum]
  else if cleanNum.length = 13 then
    [cleanNum, ['5', '5'] ++ (cleanNum.drop 2).take 2 ++ cleanNum.drop 5]
  else if cleanNum.length = 12 then
    [cleanNum, ['5', '5'] ++ (cleanNum.drop 2).take 2 ++ '9' :: cleanNum.drop 4]
  else
    [cleanNum]

/-- The probe loop of `ContactService.validateNumber`
(`src/services/contacts/ContactService.ts` lines 279-289). The oracle `net`
abstracts `sock.onWhatsApp`: `some canonical` means a non-empty result array
whose head has `exists` true and jid `canonical`; `none` covers the empty,
missing and `exists`-false cases. The accepted jid is
`validResult.jid || validJid` (the probed jid is the fallback when the
reported one is falsy). -/
def probeFirst (net : JStr → Option JStr) : List JStr → Option JStr
  | [] => none
  | t :: rest =>
    match net (jidOf t) with
    | some canonical => some (if canonical = [] then jidOf t else canonical)
    | none => probeFirst net rest

/-- Identity resolution of `ContactService.validateNumber`: probe every
variation in order and accept the first that exists; `none` is the
`{exists: false}` result. The enrichment steps after resolution are each
independently best-effort and do not influence the resolved identity. -/
def validateNumberResolve (net : JStr → Option JStr) (number : JStr) :
    Option JStr :=
  probeFirst net (getBrazilianNumberVariations number)

/-! Helper lemmas shared by several results. -/

/-- Looking up a key just set in the registry returns the set instance. -/
theorem mapGet_mapSet_self (m : List (String × InstanceData)) (k : String)
    (v : InstanceData) : mapGet (mapSet m k v) k = some v := by
  simp [mapGet, mapSet]

/-- `ensureAuthDir` keeps every directory that was already present. -/
theorem mem_ensureAuthDir_of_mem (dirs : List AuthDir) (d e : AuthDir)
    (h : e ∈ dirs) : e ∈ ensureAuthDir dirs d := by
  unfold ensureAuthDir
  split
  · exact h
  · exact List.mem_cons_of_mem _ h

/-- `ensureAuthDir` makes the requested directory present. -/
theorem mem_ensureAuthDir_self (dirs : List AuthDir) (d : AuthDir) :
    d ∈ ensureAuthDir dirs d := by
  unfold ensureAuthDir
  split
  · assumption
  · exact List.mem_cons_self d dirs

/-! Theorems for the claims. -/

/-- Claim C1. The connection-open entry actions do NOT clear `qr` and
`pairingCode`: starting from a fresh QR session, after the QR event and then
the open event, the instance is `connected` with `number` populated,
attempts reset and a blank profile picture (the fetch failed non-fatally),
but the stale QR payload is still stored — contradicting the claimed
`connected ⇒ qrPayload = null` consistency invariant. -/
theorem C1_connected_keeps_stale_qr :
    (handleConnectionOpen (some "5511999999999:12@s.whatsapp.net") none
      (handleQrUpdate (some "data:image/png;base64,QRDATA")
        (freshInstance "c1" "u1" PairingMethod.qr none)) {}).1.status =
        Status.connected ∧
    (handleConnectionOpen (some "5511999999999:12@s.whatsapp.net") none
      (handleQrUpdate (some "data:image/png;base64,QRDATA")
        (freshInstance "c1" "u1" PairingMethod.qr none)) {}).1.qr =
        some "data:image/png;base64,QRDATA" ∧
    (handleConnectionOpen (some "5511999999999:12@s.whatsapp.net") none
      (handleQrUpdate (some "data:image/png;base64,QRDATA")
        (freshInstance "c1" "u1" PairingMethod.qr none)) {}).1.number =
        some "5511999999999" ∧
    (handleConnectionOpen (some "5511999999999:12@s.whatsapp.net") none
      (handleQrUpdate (some "data:image/png;base64,QRDATA")
        (freshInstance "c1" "u1" PairingMethod.qr none)) {}).1.reconnectionAttempts = 0 ∧
    (handleConnectionOpen (some "5511999999999:12@s.whatsapp.net") none
      (handleQrUpdate (some "data:image/png;base64,QRDATA")
        (freshInstance "c1" "u1" PairingMethod.qr none)) {}).1.profilePicture =
        some "" := by
  decide

/-- Claim C2. Scheduling a second reconnect retry does not cancel the first:
after two transient close events (cause 408) on a fresh session, both timers
are pending — the stored handle was merely overwritten, so the superseded
timer can still fire. -/
theorem C2_second_close_leaves_first_timer_pending :
    (handleConnectionClose (some 408)
      (handleConnectionClose (some 408)
        (freshInstance "c1" "u1" PairingMethod.qr none) {}).1
      (handleConnectionClose (some 408)
        (freshInstance "c1" "u1" PairingMethod.qr none) {}).2).2.pending =
      [⟨1, 1000⟩, ⟨0, 1000⟩] ∧
    (handleConnectionClose (some 408)
      (handleConnectionClose (some 408)
        (freshInstance "c1" "u1" PairingMethod.qr none) {}).1
      (handleConnectionClose (some 408)
        (freshInstance "c1" "u1" PairingMethod.qr none) {}).2).1.reconnectTimeout =
      some 1 := by
  decide

/-- Claim C3. A disconnect cause in the permanent set sets
`shouldBeConnected := false` and schedules nothing: the timer environment is
untouched and the stored timer handle unchanged. -/
theorem C3_permanent_cause_short_circuit (r : Nat) (inst : InstanceData)
    (ts : TimerState) (hr : r ∈ permanentDisconnectReasons) :
    (handleConnectionClose (some r) inst ts).1.shouldBeConnected = false ∧
    (handleConnectionClose (some r) inst ts).2 = ts ∧
    (handleConnectionClose (some r) inst ts).1.reconnectTimeout =
      inst.reconnectTimeout ∧
    (handleConnectionClose (some r) inst ts).1.status = Status.disconnected := by
  have h : r = 401 ∨ r = 500 ∨ r = 411 ∨ r = 401 ∨ r = 403 ∨ r = 428 := by
    simpa [permanentDisconnectReasons, DisconnectReason.loggedOut,
      DisconnectReason.badSession, DisconnectReason.multideviceMismatch]
      using hr
  rcases h with rfl | rfl | rfl | rfl | rfl | rfl <;>
    simp [handleConnectionClose, permanentDisconnectReasons,
      DisconnectReason.restartRequired, DisconnectReason.loggedOut,
      DisconnectReason.badSession, DisconnectReason.multideviceMismatch]

/-- Claim C3, witness: the explicit-logout cause 401 on a fresh session. -/
theorem C3_permanent_cause_short_circuit_witness :
    (handleConnectionClose (some 401)
      (freshInstance "c1" "u1" PairingMethod.qr none) {}).1.shouldBeConnected =
      false ∧
    (handleConnectionClose (some 401)
      (freshInstance "c1" "u1" PairingMethod.qr none) {}).2 = {} ∧
    (handleConnectionClose (some 401)
      (freshInstance "c1" "u1" PairingMethod.qr none) {}).1.reconnectTimeout =
      (freshInstance "c1" "u1" PairingMethod.qr none).reconnectTimeout ∧
    (handleConnectionClose (some 401)
      (freshInstance "c1" "u1" PairingMethod.qr none) {}).1.status =
      Status.disconnected :=
  C3_permanent_cause_short_circuit 401
    (freshInstance "c1" "u1" PairingMethod.qr none) {} (by decide)

/-- Claim C4. Backoff policy: (1) a non-permanent, non-restart close with
`shouldBeConnected` and fewer than 5 attempts schedules a timer whose delay
is `min 15000 (1000 * 2 ^ min attempts 3)`; (2) the delay is non-decreasing
in the attempt count (so consecutive schedules of one disconnect episode,
whose attempt counts never decrease, have non-decreasing delays); (3) the
close handler never changes the attempt counter; (4) the counter is
incremented exactly when a scheduled retry fires; (5) it is reset to 0 by
the connection-open entry actions. -/
theorem C4_backoff_policy :
    (∀ (r : Nat) (inst : InstanceData) (ts : TimerState),
      r ∉ permanentDisconnectReasons → r ≠ 515 →
      inst.shouldBeConnected = true → inst.reconnectionAttempts < 5 →
      (handleConnectionClose (some r) inst ts).2.pending =
        ⟨ts.nextId, min 15000 (1000 * 2 ^ min inst.reconnectionAttempts 3)⟩ ::
          ts.pending) ∧
    (∀ a b : Nat, a ≤ b → reconnectDelayMs a ≤ reconnectDelayMs b) ∧
    (∀ (reason : Option Nat) (inst : InstanceData) (ts : TimerState),
      (handleConnectionClose reason inst ts).1.reconnectionAttempts =
        inst.reconnectionAttempts) ∧
    (∀ (tid : Nat) (inst : InstanceData) (ts : TimerState),
      inst.shouldBeConnected = true → inst.reconnectionAttempts < 5 →
      (fireReconnectTimer tid inst ts).1.reconnectionAttempts =
        inst.reconnectionAttempts + 1) ∧
    (∀ (uid : String) (pic : Option String) (inst : InstanceData)
      (ts : TimerState),
      (handleConnectionOpen (some uid) pic inst ts).1.reconnectionAttempts =
        0) := by
  refine ⟨?_, ?_, ?_, ?_, ?_⟩
  · intro r inst ts hmem h515 hsb hlt
    have h5 : r ≠ DisconnectReason.restartRequired := h515
    simp [handleConnectionClose, DisconnectReason.restartRequired, h515,
      hmem, hsb, hlt, setTimeoutReconnect, reconnectDelayMs]
  · intro a b hab
    unfold reconnectDelayMs
    have h1 : min a 3 ≤ min b 3 := min_le_min hab (le_refl 3)
    have h2 : (2 : Nat) ^ min a 3 ≤ 2 ^ min b 3 :=
      Nat.pow_le_pow_right (by norm_num) h1
    exact min_le_min (le_refl 15000) (Nat.mul_le_mul_left 1000 h2)
  · intro reason inst ts
    unfold handleConnectionClose
    repeat' split
    all_goals first | rfl | (dsimp only []; split <;> rfl)
  · intro tid inst ts hsb hlt
    simp [fireReconnectTimer, hsb, hlt]
  · intro uid pic inst ts
    unfold handleConnectionOpen
    cases hrt : inst.reconnectTimeout <;> simp [hrt]

/-- Claim C4, witness: a transient close (cause 408) at attempt count 2
schedules delay 4000 ms, and the delay at attempt 1 is at most that at
attempt 3. -/
theorem C4_backoff_policy_witness :
    (handleConnectionClose (some 408)
      { freshInstance "c1" "u1" PairingMethod.qr none with
        reconnectionAttempts := 2 } {}).2.pending = [⟨0, 4000⟩] ∧
    reconnectDelayMs 1 ≤ reconnectDelayMs 3 := by
  constructor
  · have h := C4_backoff_policy.1 408
      { freshInstance "c1" "u1" PairingMethod.qr none with
        reconnectionAttempts := 2 } {} (by decide) (by decide) (by rfl)
      (by decide)
    simpa using h
  · exact C4_backoff_policy.2.1 1 3 (by decide)

/-- Claim C5, counterexample: on a code-pairing session whose pairing-code
request fails, the current handler puts the session in `disconnected` — not
in `qr_pending` — and leaves `pairingMethod = code`. -/
theorem C5_pairing_failure_not_qr_fallback :
    (handlePairingCodeResult none
      (freshInstance "c1" "u1" PairingMethod.code (some "5511999999999"))).status =
      Status.disconnected ∧
    (handlePairingCodeResult none
      (freshInstance "c1" "u1" PairingMethod.code (some "5511999999999"))).status ≠
      Status.qr_pending ∧
    (handlePairingCodeResult none
      (freshInstance "c1" "u1" PairingMethod.code (some "5511999999999"))).pairingMethod =
      PairingMethod.code := by
  decide

/-- Claim C5, amended: in the current `EventHandlers` revision a failed
pairing-code request sets the session to `disconnected` with
`pairingMethod` unchanged; the documented `qr_pending`-with-method-`qr`
fallback is the behaviour of the legacy `whatsappService` revision only. -/
theorem C5_pairing_failure_disconnects (inst : InstanceData)
    (hguard : pairingCodeRequestGuard inst) :
    (handlePairingCodeResult none inst).status = Status.disconnected ∧
    (handlePairingCodeResult none inst).pairingMethod = inst.pairingMethod ∧
    (handlePairingCodeResult none inst).qr = inst.qr ∧
    (handlePairingCodeResultLegacy none inst).status = Status.qr_pending ∧
    (handlePairingCodeResultLegacy none inst).pairingMethod =
      PairingMethod.qr := by
  simp [handlePairingCodeResult, handlePairingCodeResultLegacy]

/-- Claim C5, witness: a fresh code-pairing session satisfies the
request guard, and the failed request leaves it disconnected. -/
theorem C5_pairing_failure_disconnects_witness :
    (handlePairingCodeResult none
      (freshInstance "c1" "u1" PairingMethod.code (some "5511999999999"))).status =
      Status.disconnected ∧
    (handlePairingCodeResultLegacy none
      (freshInstance "c1" "u1" PairingMethod.code (some "5511999999999"))).status =
      Status.qr_pending :=
  ⟨(C5_pairing_failure_disconnects
      (freshInstance "c1" "u1" PairingMethod.code (some "5511999999999"))
      (by decide)).1,
   (C5_pairing_failure_disconnects
      (freshInstance "c1" "u1" PairingMethod.code (some "5511999999999"))
      (by decide)).2.2.2.1⟩

/-- Claim C6, counterexample: restarting a session id that is NOT in the
registry does not fail with NotFound — it succeeds, silently creating a
brand-new `qr`-pairing instance under that id. -/
theorem C6_restart_missing_session_no_error :
    (restartConnection "u1" "missing" true {}).2 =
      Except.ok { connectionId := "missing" } ∧
    mapGet (restartConnection "u1" "missing" true {}).1.instances "missing" =
      some (freshInstance "missing" "u1" PairingMethod.qr none) :=
  ⟨rfl, rfl⟩

/-- Claim C6, amended. `restartConnection` fails with the NotFound error only
when the session exists under a DIFFERENT owner (leaving everything
unchanged); a missing session is not an error — it is recreated fresh with
`pairingMethod = qr`. A successful restart of an existing owned session
re-registers an instance with the same `pairingMethod` and `phoneNumber`,
attempt count 0 (`freshInstance` resets it), reuses the same credential
directory `(ownerId, sessionId)`, and deletes no credential directory. -/
theorem C6_restart_behavior :
    (∀ (st : ManagerState) (uid cid : String) (inst : InstanceData) (ok : Bool),
      mapGet st.instances cid = some inst → inst.userId ≠ uid →
      restartConnection uid cid ok st =
        (st, Except.error "Conexão não encontrada ou não autorizada")) ∧
    (∀ (st : ManagerState) (uid cid : String),
      mapGet st.instances cid = none →
      (restartConnection uid cid true st).2 = Except.ok { connectionId := cid } ∧
      mapGet (restartConnection uid cid true st).1.instances cid =
        some (freshInstance cid uid PairingMethod.qr none)) ∧
    (∀ (st : ManagerState) (uid cid : String) (inst : InstanceData),
      mapGet st.instances cid = some inst → inst.userId = uid →
      mapGet (restartConnection uid cid true st).1.instances cid =
        some { freshInstance cid uid inst.pairingMethod inst.phoneNumber with
               shouldBeConnected := inst.shouldBeConnected } ∧
      (∀ d ∈ st.authDirs, d ∈ (restartConnection uid cid true st).1.authDirs) ∧
      (⟨uid, cid⟩ : AuthDir) ∈ (restartConnection uid cid true st).1.authDirs) := by
  refine ⟨?_, ?_, ?_⟩
  · intro st uid cid inst ok hmg hne
    simp [restartConnection, hmg, hne]
  · intro st uid cid hmg
    constructor
    · simp [restartConnection, hmg]
      rfl
    · simp [restartConnection, hmg, mapGet_mapSet_self]
  · intro st uid cid inst hmg huid
    refine ⟨?_, ?_, ?_⟩
    · cases hrt : inst.reconnectTimeout <;>
        simp [restartConnection, hmg, huid, hrt, mapGet_mapSet_self]
    · intro d hd
      cases hrt : inst.reconnectTimeout <;>
        simp [restartConnection, hmg, huid, hrt] <;>
        exact mem_ensureAuthDir_of_mem _ _ _ hd
    · cases hrt : inst.reconnectTimeout <;>
        simp [restartConnection, hmg, huid, hrt] <;>
        exact mem_ensureAuthDir_self _ _

/-- A one-session registry owned by `u2`, used to witness restart. -/
def restartStateExample : ManagerState :=
  { instances := [("c1",
      freshInstance "c1" "u2" PairingMethod.code (some "5511999999999"))],
    authDirs := [⟨"u2", "c1"⟩] }

/-- Claim C6, witness: a registry holding session `c1` owned by `u2`;
restart by `u1` fails, restart of the unknown id `c9` by `u1` succeeds,
and restart of `c1` by `u2` keeps the code pairing method and number. -/
theorem C6_restart_behavior_witness :
    restartConnection "u1" "c1" true restartStateExample =
      (restartStateExample,
       Except.error "Conexão não encontrada ou não autorizada") ∧
    (restartConnection "u1" "c9" true {}).2 =
      Except.ok { connectionId := "c9" } ∧
    mapGet (restartConnection "u2" "c1" true
        restartStateExample).1.instances "c1" =
      some (freshInstance "c1" "u2" PairingMethod.code (some "5511999999999")) := by
  refine ⟨?_, ?_, ?_⟩
  · exact C6_restart_behavior.1 restartStateExample "u1" "c1"
      (freshInstance "c1" "u2" PairingMethod.code (some "5511999999999")) true
      rfl (by decide)
  · exact (C6_restart_behavior.2.1 {} "u1" "c9" rfl).1
  · exact (C6_restart_behavior.2.2 restartStateExample "u2" "c1"
      (freshInstance "c1" "u2" PairingMethod.code (some "5511999999999"))
      rfl rfl).1

/-- Claim C7. `sendMessage` contract: (1) a missing session, (2) a
not-connected or foreign-owned session each fail with no network operation
performed; (3) a failed identity resolution fails with no presence/send
operation; (4) otherwise the presence-simulation sequence subscribe →
composing → pause of `min (length × 50) 3000` ms → paused precedes the send,
and the resolved identity is returned. -/
theorem C7_sendMessage_contract :
    (∀ (uid cid toN msg : String) (resolve : String → Option String)
      (st : ManagerState),
      mapGet st.instances cid = none →
      sendMessage uid cid toN msg resolve st =
        (Except.error "Conexão não encontrada, não conectada ou não autorizada",
         [])) ∧
    (∀ (uid cid toN msg : String) (resolve : String → Option String)
      (st : ManagerState) (inst : InstanceData),
      mapGet st.instances cid = some inst →
      (inst.status ≠ Status.connected ∨ inst.userId ≠ uid) →
      sendMessage uid cid toN msg resolve st =
        (Except.error "Conexão não encontrada, não conectada ou não autorizada",
         [])) ∧
    (∀ (uid cid toN msg : String) (resolve : String → Option String)
      (st : ManagerState) (inst : InstanceData),
      mapGet st.instances cid = some inst →
      inst.status = Status.connected → inst.userId = uid →
      resolve toN = none →
      sendMessage uid cid toN msg resolve st =
        (Except.error "Número não está no WhatsApp ou é inválido", [])) ∧
    (∀ (uid cid toN msg : String) (resolve : String → Option String)
      (st : ManagerState) (inst : InstanceData) (j : String),
      mapGet st.instances cid = some inst →
      inst.status = Status.connected → inst.userId = uid →
      resolve toN = some j →
      sendMessage uid cid toN msg resolve st =
        (Except.ok j,
         [NetOp.presenceSubscribe j,
          NetOp.waitMs 500,
          NetOp.presenceComposing j,
          NetOp.waitMs (min (msg.length * 50) 3000),
          NetOp.presencePaused j,
          NetOp.waitMs 500,
          NetOp.sendText j msg])) := by
  refine ⟨?_, ?_, ?_, ?_⟩
  · intro uid cid toN msg resolve st hmg
    simp [sendMessage, hmg]
  · intro uid cid toN msg resolve st inst hmg hcond
    simp only [sendMessage, hmg]
    rw [if_pos hcond]
  · intro uid cid toN msg resolve st inst hmg hst huid hres
    simp [sendMessage, hmg, hst, huid, hres]
  · intro uid cid toN msg resolve st inst j hmg hst huid hres
    simp [sendMessage, hmg, hst, huid, hres]

/-- A one-session registry used to witness the `sendMessage` contract. -/
def sendStateExample : ManagerState :=
  { instances := [("c1",
      { freshInstance "c1" "u1" PairingMethod.qr none with
        status := Status.connected })] }

/-- Claim C7, witness: a connected owned session sends with the full
presence sequence, and an unknown session id fails with no operation. -/
theorem C7_sendMessage_contract_witness :
    sendMessage "u1" "c1" "5511999999999" "hi"
      (fun _ => some "5511999999999@s.whatsapp.net") sendStateExample =
      (Except.ok "5511999999999@s.whatsapp.net",
       [NetOp.presenceSubscribe "5511999999999@s.whatsapp.net",
        NetOp.waitMs 500,
        NetOp.presenceComposing "5511999999999@s.whatsapp.net",
        NetOp.waitMs (min ("hi".length * 50) 3000),
        NetOp.presencePaused "5511999999999@s.whatsapp.net",
        NetOp.waitMs 500,
        NetOp.sendText "5511999999999@s.whatsapp.net" "hi"]) ∧
    sendMessage "u1" "nope" "x" "hi" (fun _ => none) sendStateExample =
      (Except.error "Conexão não encontrada, não conectada ou não autorizada",
       []) := by
  constructor
  · exact C7_sendMessage_contract.2.2.2 "u1" "c1" "5511999999999" "hi"
      (fun _ => some "5511999999999@s.whatsapp.net") sendStateExample
      _ "5511999999999@s.whatsapp.net" rfl rfl rfl rfl
  · exact C7_sendMessage_contract.1 "u1" "nope" "x" "hi" (fun _ => none)
      sendStateExample rfl

/-- If no variation exists on the network, the probe loop yields nothing. -/
theorem probeFirst_eq_none (net : JStr → Option JStr) (l : List JStr)
    (h : ∀ t ∈ l, net (jidOf t) = none) : probeFirst net l = none := by
  induction l with
  | nil => rfl
  | cons t rest ih =>
    have ht := h t (List.mem_cons_self t rest)
    simp only [probeFirst, ht]
    exact ih (fun x hx => h x (List.mem_cons_of_mem t hx))

/-- A network on which every probed jid exists, reported canonically. -/
def bothExistNet : JStr → Option JStr := fun j => some j

/-- Claim C8, counterexample: for the 12-digit input the probe order is
12-digit first (not 13-digit first as claimed), and on a network where both
variants exist, the 13- and 12-digit forms of the same subscriber resolve
to DIFFERENT canonical identities. -/
theorem C8_variant_order_counterexample :
    getBrazilianNumberVariations "551187654321".toList =
      ["551187654321".toList, "5511987654321".toList] ∧
    validateNumberResolve bothExistNet "5511987654321".toList =
      some ("5511987654321@s.whatsapp.net".toList) ∧
    validateNumberResolve bothExistNet "551187654321".toList =
      some ("551187654321@s.whatsapp.net".toList) ∧
    validateNumberResolve bothExistNet "5511987654321".toList ≠
      validateNumberResolve bothExistNet "551187654321".toList := by
  decide

/-- Claim C8, amended. For a clean 12-digit home-plan number `d`
(digits only, starting `55`) with 13-digit partner
`u = d.take 4 ++ '9' :: d.drop 4`: the variations of `d` are probed in the
order `[d, u]` (input first) and those of `u` in the order `[u, d]`; the
first variant confirmed to exist is accepted, so whenever AT MOST ONE of
the two variants exists on the network, both input forms resolve to the
same canonical identity; and when no variant resolves the result is
`exists: false` (`none`). -/
theorem C8_variant_probing_amended (d : JStr) (net : JStr → Option JStr)
    (hlen : d.length = 12) (hdig : ∀ c ∈ d, c.isDigit)
    (h55 : d.take 2 = ['5', '5']) :
    getBrazilianNumberVariations d = [d, d.take 4 ++ '9' :: d.drop 4] ∧
    getBrazilianNumberVariations (d.take 4 ++ '9' :: d.drop 4) =
      [d.take 4 ++ '9' :: d.drop 4, d] ∧
    (net (jidOf (d.take 4 ++ '9' :: d.drop 4)) = none →
      validateNumberResolve net d =
        validateNumberResolve net (d.take 4 ++ '9' :: d.drop 4)) ∧
    (net (jidOf d) = none →
      validateNumberResolve net d =
        validateNumberResolve net (d.take 4 ++ '9' :: d.drop 4)) ∧
    ((∀ t ∈ getBrazilianNumberVariations d, net (jidOf t) = none) →
      validateNumberResolve net d = none) := by
  set u := d.take 4 ++ '9' :: d.drop 4 with hu
  have hAt : '@' ∉ d := fun hm => absurd (hdig '@' hm) (by decide)
  have hfilter : d.filter Char.isDigit = d := List.filter_eq_self.mpr hdig
  have htake4 : d.take 4 = d.take 2 ++ (d.drop 2).take 2 := List.take_add d 2 2
  have hlen4 : (d.take 4).length = 4 := by simp [List.length_take, hlen]
  have hudig : ∀ c ∈ u, c.isDigit := by
    intro c hc
    rw [hu] at hc
    rcases List.mem_append.mp hc with h | h
    · exact hdig c (List.take_subset 4 d h)
    · rcases List.mem_cons.mp h with rfl | h
      · decide
      · exact hdig c (List.drop_subset 4 d h)
  have huAt : '@' ∉ u := fun hm => absurd (hudig '@' hm) (by decide)
  have hufilter : u.filter Char.isDigit = u := List.filter_eq_self.mpr hudig
  have hulen : u.length = 13 := by
    rw [hu]
    simp [List.length_append, List.length_take, List.length_drop, hlen]
  have hu55 : u.take 2 = ['5', '5'] := by
    rw [hu, List.take_append_eq_append_take, hlen4, List.take_take]
    simpa using h55
  have h1 : u.drop 2 = (d.drop 2).take 2 ++ '9' :: d.drop 4 := by
    rw [hu, List.drop_append_eq_append_drop, hlen4, List.drop_take]
    simp
  have h2 : (u.drop 2).take 2 = (d.drop 2).take 2 := by
    rw [h1, List.take_append_eq_append_take]
    have hl2 : ((d.drop 2).take 2).length = 2 := by
      simp [List.length_take, List.length_drop, hlen]
    rw [hl2, List.take_take]
    simp
  have h3 : u.drop 5 = d.drop 4 := by
    rw [hu, List.drop_append_eq_append_drop, hlen4]
    have hnil : (d.take 4).drop 5 = [] :=
      List.drop_eq_nil_of_le (by rw [hlen4]; decide)
    rw [hnil]
    simp
  have hd_eq : ['5', '5'] ++ (d.drop 2).take 2 ++ d.drop 4 = d := by
    rw [← h55, ← htake4, List.take_append_drop]
  have hvar_d : getBrazilianNumberVariations d = [d, u] := by
    unfold getBrazilianNumberVariations
    simp only [hfilter]
    rw [if_neg hAt, if_neg (fun h => h h55), if_neg (by simp [hlen]),
      if_pos hlen, hu]
    simp [htake4, h55, List.append_assoc]
  have hvar_u : getBrazilianNumberVariations u = [u, d] := by
    unfold getBrazilianNumberVariations
    simp only [hufilter]
    rw [if_neg huAt, if_neg (fun h => h hu55), if_pos hulen, h2, h3, hd_eq]
  refine ⟨hvar_d, hvar_u, ?_, ?_, ?_⟩
  · intro hnu
    unfold validateNumberResolve
    rw [hvar_d, hvar_u]
    cases hnd : net (jidOf d) <;> simp [probeFirst, hnd, hnu]
  · intro hnd
    unfold validateNumberResolve
    rw [hvar_d, hvar_u]
    cases hnu : net (jidOf u) <;> simp [probeFirst, hnd, hnu]
  · intro hall
    unfold validateNumberResolve
    exact probeFirst_eq_none net _ hall

/-- A network on which only the 12-digit variant exists. -/
def oneVariantNet : JStr → Option JStr :=
  fun j => if j = "551187654321@s.whatsapp.net".toList then some j else none

/-- Claim C8, witness: the 12-digit number `551187654321`, its 13-digit
partner, and a network where only the 12-digit variant exists: both input
forms resolve to the same identity. -/
theorem C8_variant_probing_amended_witness :
    getBrazilianNumberVariations "551187654321".toList =
      ["551187654321".toList, "5511987654321".toList] ∧
    validateNumberResolve oneVariantNet "551187654321".toList =
      validateNumberResolve oneVariantNet "5511987654321".toList := by
  have h := C8_variant_probing_amended "551187654321".toList oneVariantNet
    (by decide) (by decide) (by decide)
  exact ⟨h.1, h.2.2.1 (by decide)⟩

/-- Claim C9, counterexample: a phone number full of non-digit characters
passes the code-pairing validation, because the code strips non-digits
before checking the length instead of rejecting them. -/
theorem C9_nondigit_passes_validation :
    validatePairingPhone PairingMethod.code (some "+55 (11) 99999-9999") =
      Except.ok () ∧
    "+55 (11) 99999-9999".toList.any (fun c => !c.isDigit) = true :=
  ⟨rfl, by decide⟩

/-- Claim C9, amended: for `pairingMethod = code` the validation accepts a
present, non-empty `phoneNumber` exactly when its digit-stripped form has
between 10 and 15 digits — non-digit characters are stripped, not
rejected; a missing number is rejected; `qr` sessions are not validated. -/
theorem C9_phone_validation_amended :
    (∀ p : String,
      validatePairingPhone PairingMethod.code (some p) = Except.ok () ↔
        10 ≤ (cleanDigits p).length ∧ (cleanDigits p).length ≤ 15) ∧
    validatePairingPhone PairingMethod.code none =
      Except.error "Phone number is required for pairing code method" ∧
    (∀ ph, validatePairingPhone PairingMethod.qr ph = Except.ok ()) := by
  refine ⟨?_, rfl, fun ph => rfl⟩
  intro p
  by_cases hp : p = ""
  · subst hp
    simp [validatePairingPhone, isFalsyStr]
    decide
  · by_cases hl : (cleanDigits p).length < 10 ∨ (cleanDigits p).length > 15
    · simp [validatePairingPhone, isFalsyStr, hp, hl]
      omega
    · simp [validatePairingPhone, isFalsyStr, hp, hl]
      omega

/-- Claim C9, witness: a plain 13-digit number is accepted. -/
theorem C9_phone_validation_amended_witness :
    validatePairingPhone PairingMethod.code (some "5511999999999") =
      Except.ok () :=
  (C9_phone_validation_amended.1 "5511999999999").mpr (by decide)

/-- Claim C10. A `create` call with `pairingMethod = code` and an invalid
phone number fails with the validation error, leaves the registry exactly
as it was, and leaves the credential directory for the fresh session id
created on disk (it was made before validation and the failure path does
not remove it). -/
theorem C10_failed_create_leaves_dir (uid cid : String)
    (phone : Option String) (st : ManagerState) (ok : Bool) (e : String)
    (hval : validatePairingPhone PairingMethod.code phone = Except.error e) :
    (createConnection uid PairingMethod.code phone cid ok st).1.instances =
      st.instances ∧
    (⟨uid, cid⟩ : AuthDir) ∈
      (createConnection uid PairingMethod.code phone cid ok st).1.authDirs ∧
    (createConnection uid PairingMethod.code phone cid ok st).2 =
      Except.error e := by
  refine ⟨?_, ?_, ?_⟩
  · simp [createConnection, hval]
  · simp [createConnection, hval]
    exact mem_ensureAuthDir_self _ _
  · simp [createConnection, hval]

/-- Claim C10, witness: creating with the 3-digit number `123` fails but
leaves the directory `(u1, c1)` on disk and the registry empty. -/
theorem C10_failed_create_leaves_dir_witness :
    (createConnection "u1" PairingMethod.code (some "123") "c1" true
      {}).1.instances = ({} : ManagerState).instances ∧
    (⟨"u1", "c1"⟩ : AuthDir) ∈
      (createConnection "u1" PairingMethod.code (some "123") "c1" true
        {}).1.authDirs ∧
    (createConnection "u1" PairingMethod.code (some "123") "c1" true {}).2 =
      Except.error "Phone number must be in E.164 format without + sign" :=
  C10_failed_create_leaves_dir "u1" "c1" (some "123") {} true
    "Phone number must be in E.164 format without + sign" rfl

end BaileysRest
